import Mathlib

/-!
Verification of the nado_db data-access layer (src/driver.py, src/utils.py,
src/factory.py, src/model.py, src/sequence.py) against its specification.

The Python code is shallowly embedded: each mutating method becomes a pure
function returning the new state of its receiver; exceptions become values of
an error type; the wall clock, the snowflake machine id and the underlying
database cursor become explicit parameters.  Python string literals containing
quote or brace characters are written with \x27, \x7b, \x7d escapes.
-/

/-- Python exception values that the embedded code can raise. -/
inductive PyErr where
  | attributeError
  | indexError
  | typeError
  | valueError
  deriving Repr, DecidableEq

/-! ## Python string primitives -/

/-- Fuel-driven core of Python str.replace: leftmost, non-overlapping
occurrences of pattern p are replaced by q.  The fuel starts at the length of
the subject string; one fuel unit is spent per subject character inspected, and
a match consumes at least one character, so the fuel never runs out. -/
def pyReplaceAux (p q : List Char) : Nat → List Char → List Char
  | 0, s => s
  | _ + 1, [] => []
  | fuel + 1, c :: rest =>
    if p.isPrefixOf (c :: rest) then
      q ++ pyReplaceAux p q fuel (List.drop (p.length - 1) rest)
    else
      c :: pyReplaceAux p q fuel rest

/-- Python str.replace(pat, rep) for a non-empty pattern (the code never
replaces an empty pattern). -/
def pyReplace (s pat rep : String) : String :=
  if pat.toList.isEmpty then s
  else String.mk (pyReplaceAux pat.toList rep.toList s.toList.length s.toList)

/-- Python str.format with positional \x7b\x7d placeholders: each placeholder
consumes the next argument; a placeholder without a matching argument raises
IndexError; surplus arguments are ignored. -/
def pyFormatAux : List Char → List String → Option (List Char)
  | [], _ => some []
  | '\x7b' :: '\x7d' :: _, [] => none
  | '\x7b' :: '\x7d' :: rest, a :: args => (pyFormatAux rest args).map (a.toList ++ ·)
  | c :: rest, args => (pyFormatAux rest args).map (c :: ·)

def pyFormat (s : String) (args : List String) : Except PyErr String :=
  match pyFormatAux s.toList args with
  | some cs => .ok (String.mk cs)
  | none => .error .indexError

/-- Zero-pad a natural to at least two digits (Python %02d). -/
def pad2 (n : Nat) : String :=
  if n < 10 then "0" ++ toString n else toString n

/-- Zero-pad a natural to at least four digits (Python %04d). -/
def pad4 (n : Nat) : String :=
  if n < 10 then "000" ++ toString n
  else if n < 100 then "00" ++ toString n
  else if n < 1000 then "0" ++ toString n
  else toString n

/-- Zero-pad a natural to at least six digits (Python %06d). -/
def pad6 (n : Nat) : String :=
  if n < 10 then "00000" ++ toString n
  else if n < 100 then "0000" ++ toString n
  else if n < 1000 then "000" ++ toString n
  else if n < 10000 then "00" ++ toString n
  else if n < 100000 then "0" ++ toString n
  else toString n

/-! ## Python values

The value universe the claims range over.  Python datetime.datetime and
datetime.date values are naive calendar tuples here.  The numeric branch of the
source tests the exact type (type(p) in (int, float, decimal.Decimal)), so bool
is a distinct constructor that never takes the numeric branch, mirroring
type(True) is bool in Python.  float and Decimal are omitted from the universe:
no claim quantifies over them. -/

structure PyDateTime where
  year : Nat
  month : Nat
  day : Nat
  hour : Nat
  minute : Nat
  second : Nat
  microsecond : Nat
  deriving Repr, DecidableEq

structure PyDate where
  year : Nat
  month : Nat
  day : Nat
  deriving Repr, DecidableEq

/-- Python str() of a naive datetime: isoformat with a space separator, the
.ffffff tail present exactly when the microsecond field is non-zero. -/
def dtStr (d : PyDateTime) : String :=
  pad4 d.year ++ "-" ++ pad2 d.month ++ "-" ++ pad2 d.day ++ " " ++
    pad2 d.hour ++ ":" ++ pad2 d.minute ++ ":" ++ pad2 d.second ++
    (if d.microsecond = 0 then "" else "." ++ pad6 d.microsecond)

/-- Python datetime.strftime(%Y-%m-%d %H:%M:%S): never emits microseconds. -/
def dtStrHMS (d : PyDateTime) : String :=
  pad4 d.year ++ "-" ++ pad2 d.month ++ "-" ++ pad2 d.day ++ " " ++
    pad2 d.hour ++ ":" ++ pad2 d.minute ++ ":" ++ pad2 d.second

/-- Python str() of a date. -/
def dateStr (d : PyDate) : String :=
  pad4 d.year ++ "-" ++ pad2 d.month ++ "-" ++ pad2 d.day

inductive Value where
  | vnone
  | int (i : Int)
  | bool (b : Bool)
  | str (s : String)
  | datetime (d : PyDateTime)
  | date (d : PyDate)
  deriving Repr, DecidableEq

/-- Python str() on the value universe. -/
def pyStr : Value → String
  | .vnone => "None"
  | .int i => toString i
  | .bool b => if b then "True" else "False"
  | .str s => s
  | .datetime d => dtStr d
  | .date d => dateStr d

/-! ## src/driver.py : sql_params -/

/-- The loop body of driver.sql_params: how one argument is rendered before
substitution.  None becomes NULL; exact ints (and the omitted float/Decimal)
render unquoted; exact datetime.datetime renders as quoted str(p) with no
escaping; every other value is stringified, single quotes doubled, and
quoted. -/
def sqlParamRender : Value → String
  | .vnone => "NULL"
  | .int i => toString i
  | .datetime d => "\x27" ++ dtStr d ++ "\x27"
  | v => "\x27" ++ pyReplace (pyStr v) "\x27" "\x27\x27" ++ "\x27"

/-- driver.sql_params(sql, *args): renders every argument and substitutes them
into the template; with no arguments the template is returned unchanged. -/
def sql_params (sql : String) (args : List Value) : Except PyErr String :=
  let params := args.map sqlParamRender
  if params.length > 0 then pyFormat sql params else .ok sql

/-! ## src/utils.py : QueryWrapper -/

structure QueryWrapper where
  _condition : List String
  _order : List String
  _last : String
  deriving Repr, DecidableEq

/-- QueryWrapper.__init__. -/
def QueryWrapper.init : QueryWrapper :=
  { _condition := ["1=1"], _order := [], _last := "" }

/-- Escaping of LIKE wildcard metacharacters used inside _like_filter:
value.replace(%, backslash-%).replace(_, backslash-_). -/
def likeWildEsc (s : String) : String :=
  pyReplace (pyReplace s "%" "\\%") "_" "\\_"

/-- QueryWrapper._like_filter.  Only operators that start with the four
letters of like are treated (so the operator string of not_like is left
untouched by the outer test in the source, because it starts with not).
Inside, the value is stringified with quotes doubled, and wrapped in wildcard
characters according to the operator. -/
def likeFilter (value : Value) (op : String) : Value × String :=
  if List.isPrefixOf "like".toList op.toList then
    let v := pyReplace (pyStr value) "\x27" "\x27\x27"
    if op = "like" ∨ op = "not like" then
      (.str ("%" ++ likeWildEsc v ++ "%"), op)
    else if op = "like_left" then
      (.str ("%" ++ likeWildEsc v), "like")
    else if op = "like_right" then
      (.str (likeWildEsc v ++ "%"), "like")
    else
      (.str v, op)
  else
    (value, op)

/-- QueryWrapper._format_value: NULL for None, bare text for exact numeric
types, quoted strftime for datetime, and for everything else the stringified
value with quotes doubled and backslashes doubled, quoted.  (The Enum branch of
the source is outside this value universe.) -/
def formatValue : Value → String
  | .vnone => "NULL"
  | .int i => toString i
  | .datetime d => "\x27" ++ dtStrHMS d ++ "\x27"
  | v => "\x27" ++ pyReplace (pyReplace (pyStr v) "\x27" "\x27\x27") "\\" "\\\\" ++ "\x27"

/-- QueryWrapper._base_op: runs the like filter, prefixes the alias, then
appends one predicate string; datetime and date comparison values get the
widened .000000/.999999 (or 00:00:00/23:59:59) bounds on ranged operators. -/
def baseOp (w : QueryWrapper) (column : String) (value : Value) (op : String)
    (al : String) : QueryWrapper :=
  let p := likeFilter value op
  let value := p.1
  let op := p.2
  let column := if al ≠ "" then al ++ "." ++ column else column
  match value with
  | .datetime d =>
    let v := dtStrHMS d
    if op = ">" ∨ op = ">=" then
      { w with _condition := w._condition ++ [column ++ " " ++ op ++ " \x27" ++ v ++ ".000000\x27"] }
    else if op = "<" ∨ op = "<=" then
      { w with _condition := w._condition ++ [column ++ " " ++ op ++ " \x27" ++ v ++ ".999999\x27"] }
    else
      { w with _condition := w._condition ++ [column ++ " " ++ op ++ " \x27" ++ v ++ "\x27"] }
  | .date d =>
    let v := dateStr d
    if op = ">" ∨ op = ">=" then
      { w with _condition := w._condition ++ [column ++ " " ++ op ++ " \x27" ++ v ++ " 00:00:00.000000\x27"] }
    else if op = "<" ∨ op = "<=" then
      { w with _condition := w._condition ++ [column ++ " " ++ op ++ " \x27" ++ v ++ " 23:59:59.999999\x27"] }
    else
      { w with _condition := w._condition ++ [column ++ " " ++ op ++ " \x27" ++ v ++ "\x27"] }
  | v =>
    { w with _condition := w._condition ++ [column ++ " " ++ op ++ " " ++ formatValue v] }

def QueryWrapper.eq (w : QueryWrapper) (c : String) (v : Value) (al : String := "") :=
  baseOp w c v "=" al

def QueryWrapper.ne (w : QueryWrapper) (c : String) (v : Value) (al : String := "") :=
  baseOp w c v "<>" al

def QueryWrapper.lt (w : QueryWrapper) (c : String) (v : Value) (al : String := "") :=
  baseOp w c v "<" al

def QueryWrapper.le (w : QueryWrapper) (c : String) (v : Value) (al : String := "") :=
  baseOp w c v "<=" al

def QueryWrapper.gt (w : QueryWrapper) (c : String) (v : Value) (al : String := "") :=
  baseOp w c v ">" al

def QueryWrapper.ge (w : QueryWrapper) (c : String) (v : Value) (al : String := "") :=
  baseOp w c v ">=" al

def QueryWrapper.like (w : QueryWrapper) (c : String) (v : Value) (al : String := "") :=
  baseOp w c v "like" al

def QueryWrapper.not_like (w : QueryWrapper) (c : String) (v : Value) (al : String := "") :=
  baseOp w c v "not like" al

def QueryWrapper.like_left (w : QueryWrapper) (c : String) (v : Value) (al : String := "") :=
  baseOp w c v "like_left" al

def QueryWrapper.like_right (w : QueryWrapper) (c : String) (v : Value) (al : String := "") :=
  baseOp w c v "like_right" al

/-- QueryWrapper.include, with the post-raise state returned alongside the
exception: on an empty argument tuple the source raises IndexError before any
statement that writes to self, so the returned wrapper is the receiver
unchanged; otherwise exactly one IN predicate is appended. -/
def QueryWrapper.includeOp (w : QueryWrapper) (column : String) (values : List Value)
    (al : String := "") : Option PyErr × QueryWrapper :=
  if values.isEmpty then
    (some .indexError, w)
  else
    let fv := values.map formatValue
    let column := if al ≠ "" then al ++ "." ++ column else column
    (none, { w with _condition := w._condition ++ [column ++ " in (" ++ String.intercalate "," fv ++ ")"] })

/-- QueryWrapper.last (a mutator in the source; the new state is returned). -/
def QueryWrapper.lastClause (w : QueryWrapper) (sql : String) : QueryWrapper :=
  { w with _last := sql }

/-- QueryWrapper.xor: the receiver A is returned with its condition list
replaced in place by the single combined predicate ((A) or (B)); the argument
is only read. -/
def QueryWrapper.xor (w other : QueryWrapper) : QueryWrapper :=
  let upper := String.intercalate " and " w._condition
  let lower := String.intercalate " and " other._condition
  { w with _condition := ["((" ++ upper ++ ") or (" ++ lower ++ "))"] }

/-- QueryWrapper.order property. -/
def QueryWrapper.order (w : QueryWrapper) : String :=
  if w._order.length > 0 then " ORDER BY " ++ String.intercalate "," w._order ++ " " else ""

/-- QueryWrapper.sql_segment property. -/
def QueryWrapper.sql_segment (w : QueryWrapper) : String :=
  String.intercalate " and " w._condition ++ " " ++ w.order ++ " " ++ w._last

/-! ## src/utils.py : Page -/

structure Page where
  offset : Nat
  size : Nat
  total : Nat
  record : List (List (String × Value))
  wrapper : QueryWrapper
  deriving Repr, DecidableEq

/-- Page._structure: rewrites the trailing clause of the wrapped builder to
the current LIMIT/OFFSET window. -/
def pageStructure (p : Page) : Page :=
  { p with wrapper := p.wrapper.lastClause ("LIMIT " ++ toString p.size ++ " OFFSET " ++ toString p.offset) }

/-- Page.__init__(query_wrapper, offset, size): total starts at 0, the record
list empty, the builder is copied, and the trailing clause is built once. -/
def Page.init (w : QueryWrapper) (offset : Nat := 0) (size : Nat := 10) : Page :=
  pageStructure { offset := offset, size := size, total := 0, record := [], wrapper := w }

/-- Page.next: advances the offset by size only when total admits a further
window, clearing the cached rows and rebuilding the trailing clause; otherwise
the page is returned unchanged. -/
def Page.next (p : Page) : Page :=
  if p.total ≥ p.offset + p.size then
    pageStructure { p with offset := p.offset + p.size, record := [] }
  else
    p

/-- Page.prev: the offset is clamped at zero. -/
def Page.prev (p : Page) : Page :=
  pageStructure { p with offset := p.offset - p.size, record := [] }

/-! ## src/sequence.py : snowflake generator

The process-global pair (_last_point, _last_sequence) becomes an explicit
state; the wall-clock tick int((time.time() - _start_point) * 100) becomes the
point argument (a natural: the clock is at or after the 2020 epoch); the
process constant _machine_id becomes the parameter m. -/

def sequenceLength : Nat := 10

structure FlakeState where
  lastPoint : Nat
  lastSeq : Nat
  deriving Repr, DecidableEq

/-- sequence.flake for one call: returns the new global state and the returned
id.  On a repeated tick the sequence increments, and once it would exceed
2 ^ sequence_length the call returns 0 leaving the globals untouched (the
early return precedes the global write); on a fresh tick the sequence resets
to 0. -/
def flake (m : Nat) (st : FlakeState) (point : Nat) : FlakeState × Nat :=
  if st.lastPoint = point then
    let count := st.lastSeq + 1
    if count > 1 <<< sequenceLength then
      (st, 0)
    else
      ({ st with lastSeq := count },
        (st.lastPoint <<< (sequenceLength + 12)) + (m <<< sequenceLength) + count)
  else
    ({ lastPoint := point, lastSeq := 0 },
      (point <<< (sequenceLength + 12)) + (m <<< sequenceLength) + 0)

/-- A sequence of flake calls at the given clock points, threading the global
state; returns the list of returned ids. -/
def flakeRun (m : Nat) (st : FlakeState) : List Nat → List Nat
  | [] => []
  | p :: ps =>
    let r := flake m st p
    r.2 :: flakeRun m r.1 ps

/-! ## src/driver.py : Driver.execute and the transaction stack

The physical connection and cursor are abstracted by an oracle mapping the
final SQL text to either an affected-row count or a raised error; commit and
rollback on the connection context, connection unloading and raw statement
execution are recorded as an event trace. -/

inductive DbEvent where
  | commitDb
  | rollbackDb
  | unloadCtx
  | execSql (sql : String)
  deriving Repr, DecidableEq

/-- The events of ctx.commit(unload): the connection commit, then the unload
when requested and pooling is enabled (driver._load_context). -/
def ctxCommit (pooling unload : Bool) : List DbEvent :=
  [DbEvent.commitDb] ++ (if unload && pooling then [DbEvent.unloadCtx] else [])

/-- The events of ctx.rollback(): the connection rollback, then the unload
when pooling is enabled (driver._load_context). -/
def ctxRollback (pooling : Bool) : List DbEvent :=
  [DbEvent.rollbackDb] ++ (if pooling then [DbEvent.unloadCtx] else [])

/-- The outcome of Driver.execute / Driver._execute: the value returned to the
caller (none when the Python function falls off the end returning None) or the
exception propagated, the logger.error lines emitted, and the event trace on
the connection context. -/
structure ExecOut where
  result : Except String (Option Int)
  log : List String
  events : List DbEvent
  deriving Repr

/-- Driver._execute(sql): delegates to the cursor; on failure logs the
offending SQL text and re-raises. -/
def driverUnderExecute (cursorExec : String → Except String Int) (sql : String) : ExecOut :=
  match cursorExec sql with
  | .ok n => { result := .ok (some n), log := [], events := [DbEvent.execSql sql] }
  | .error e => { result := .error e, log := ["ERR: " ++ sql], events := [DbEvent.execSql sql] }

/-- Driver.execute(sql, params, transaction): substitutes the parameters, then
either delegates directly to _execute (transaction passed), or wraps it in a
try block whose success path commits the context and whose except path rolls
the context back and suppresses the exception, returning None. -/
def driverExecute (cursorExec : String → Except String Int) (pooling : Bool)
    (sql : String) (params : List Value) (transaction : Bool) : ExecOut :=
  match sql_params sql params with
  | .error _ => { result := .error "format error", log := [], events := [] }
  | .ok fsql =>
    if transaction then
      driverUnderExecute cursorExec fsql
    else
      match cursorExec fsql with
      | .ok n =>
        { result := .ok (some n), log := [],
          events := [DbEvent.execSql fsql] ++ ctxCommit pooling true }
      | .error _ =>
        { result := .ok none, log := ["ERR: " ++ fsql],
          events := [DbEvent.execSql fsql] ++ ctxRollback pooling }

/-! ## src/driver.py : Transaction

Driver.__init__ stores the configuration dict (with its default
ignore_nested_transactions = True entry) on the driver object itself.  The
thread-local context built by Driver._load_context receives the attributes
db_count, transactions, db, execute, commit and rollback — and no config
attribute; an attribute absent from the thread-local store raises
AttributeError on access, modeled by an Option field. -/

structure DrvConfig where
  ignore_nested_transactions : Bool
  deriving Repr, DecidableEq

inductive EngineKind where
  | base
  | sub
  | dummy
  deriving Repr, DecidableEq

/-- One entry of ctx.transactions: the Transaction object, as far as commit
and rollback consult it (its recorded depth and its engine variant). -/
structure TFrame where
  transaction_count : Nat
  engine : EngineKind
  deriving Repr, DecidableEq

structure Ctx where
  db_count : Nat
  transactions : List TFrame
  config : Option DrvConfig
  deriving Repr, DecidableEq

/-- Driver._load_context: fresh thread-local context.  No config attribute is
ever assigned to it. -/
def load_context : Ctx :=
  { db_count := 0, transactions := [], config := none }

/-- Transaction.__init__(ctx): records the current depth, selects the engine —
base at depth 0; at depth > 0 it reads ctx.config, whose absence raises
AttributeError, and otherwise picks dummy or sub by the
ignore_nested_transactions flag — runs the engine transact hook (base: a real
ctx.commit(unload=False); sub: SAVEPOINT via ctx.execute, which is
Driver.execute without the transaction argument and therefore commits after
the statement; dummy: nothing) and pushes the frame. -/
def transactionBegin (pooling : Bool) (ctx : Ctx) :
    Except PyErr (Ctx × TFrame × List DbEvent) :=
  let tc := ctx.transactions.length
  if tc ≠ 0 then
    match ctx.config with
    | none => .error .attributeError
    | some cfg =>
      if cfg.ignore_nested_transactions then
        let fr : TFrame := { transaction_count := tc, engine := .dummy }
        .ok ({ ctx with transactions := ctx.transactions ++ [fr] }, fr, [])
      else
        let fr : TFrame := { transaction_count := tc, engine := .sub }
        .ok ({ ctx with transactions := ctx.transactions ++ [fr] }, fr,
          [DbEvent.execSql ("SAVEPOINT NADO_" ++ toString tc)] ++ ctxCommit pooling true)
  else
    let fr : TFrame := { transaction_count := 0, engine := .base }
    .ok ({ ctx with transactions := ctx.transactions ++ [fr] }, fr, ctxCommit pooling false)

/-- Transaction.commit: only when the stack still reaches above the recorded
depth does the engine commit (base: real commit; sub: RELEASE SAVEPOINT via
ctx.execute; dummy: nothing), after which the stack is truncated back. -/
def transactionCommit (pooling : Bool) (ctx : Ctx) (t : TFrame) : Ctx × List DbEvent :=
  if ctx.transactions.length > t.transaction_count then
    let evts := match t.engine with
      | .base => ctxCommit pooling true
      | .sub => [DbEvent.execSql ("RELEASE SAVEPOINT NADO_" ++ toString t.transaction_count)] ++
          ctxCommit pooling true
      | .dummy => []
    ({ ctx with transactions := ctx.transactions.take t.transaction_count }, evts)
  else
    (ctx, [])

/-- Transaction.rollback: symmetric to commit. -/
def transactionRollback (pooling : Bool) (ctx : Ctx) (t : TFrame) : Ctx × List DbEvent :=
  if ctx.transactions.length > t.transaction_count then
    let evts := match t.engine with
      | .base => ctxRollback pooling
      | .sub => [DbEvent.execSql ("ROLLBACK TO SAVEPOINT NADO_" ++ toString t.transaction_count)] ++
          ctxCommit pooling true
      | .dummy => []
    ({ ctx with transactions := ctx.transactions.take t.transaction_count }, evts)
  else
    (ctx, [])

/-! ## src/model.py : BaseModel and src/factory.py : RepositoryFactory

BaseModel fields in dataclass order, with the data_field metadata of the
source: id (length 20), version (required, length 11), deleted (required,
length 4), create_time and modify_time (length 20, type datetime so exempt
from the length check).  Every field carries exists=True.  A Python int field
may also hold None, hence Option Int. -/

structure BaseModel where
  id : Option Int
  version : Option Int
  deleted : Option Int
  create_time : Option PyDateTime
  modify_time : Option PyDateTime
  deriving Repr, DecidableEq

/-- Python truthiness of an optional int attribute (None and 0 are falsy). -/
def fieldTruthy : Option Int → Bool
  | none => false
  | some n => n ≠ 0

/-- One step of BaseModel.check_data for an int field: the guard
data and len(str(data)) > length. -/
def lenOverflow (v : Option Int) (limit : Nat) : Bool :=
  match v with
  | none => false
  | some n => n ≠ 0 && (toString n).toList.length > limit

/-- BaseModel.check_data: raises ValueError at the first int field whose
printed length exceeds its metadata length (datetime fields are skipped by the
type test of the source). -/
def check_data (obj : BaseModel) : Except PyErr Unit :=
  if lenOverflow obj.id 20 then .error .valueError
  else if lenOverflow obj.version 11 then .error .valueError
  else if lenOverflow obj.deleted 4 then .error .valueError
  else .ok ()

def optIntV : Option Int → Value
  | none => .vnone
  | some n => .int n

def optDtV : Option PyDateTime → Value
  | none => .vnone
  | some d => .datetime d

/-- BaseModel.to_table: the field dict in declaration order; a required field
holding None raises ValueError (version first, then deleted). -/
def to_table (obj : BaseModel) : Except PyErr (List (String × Value)) :=
  match obj.version with
  | none => .error .valueError
  | some v =>
    match obj.deleted with
    | none => .error .valueError
    | some d =>
      .ok [("id", optIntV obj.id), ("version", .int v), ("deleted", .int d),
           ("create_time", optDtV obj.create_time), ("modify_time", optDtV obj.modify_time)]

/-- RepositoryFactory.check: the table mapping must be present (a missing or
empty table attribute is falsy and raises TypeError) and the record must pass
check_data. -/
def factoryCheck (table : String) (obj : BaseModel) : Except PyErr Unit :=
  if table = "" then .error .typeError else check_data obj

/-- Dict item assignment d[k] = v for an existing key of the ordered dict. -/
def assocSet (l : List (String × Value)) (k : String) (v : Value) : List (String × Value) :=
  l.map (fun p => if p.1 = k then (p.1, v) else p)

/-- Dict lookup d[k]. -/
def assocGet (l : List (String × Value)) (k : String) : Value :=
  ((l.find? (fun p => p.1 = k)).map (fun p => p.2)).getD .vnone

/-- Python += 1 on a dict entry known to hold an int. -/
def incInt : Value → Value
  | .int n => .int (n + 1)
  | v => v

/-- The single driver call that RepositoryFactory.save hands to the
AsyncDriver: either update(table, where=..., **updates) or
insert(table, _seq=..., **params). -/
inductive DbCall where
  | update (table whereClause : String) (sets : List (String × Value))
  | insert (table : String) (seq : Option String) (values : List (String × Value))
  deriving Repr, DecidableEq

/-- RepositoryFactory.save(obj).  The wall clock datetime.now() is the now
parameter; the first non-zero value of the flake() retry loop inside
BaseModel.next_val is the flakeId parameter.  With a populated (truthy)
primary key the update branch builds updates = params minus the key, bumps its
version entry, overwrites modify_time, and guards the update with the WHERE
clause interpolating the record id and its pre-increment version; otherwise
next_val assigns the snowflake id when auto increment is off (the id column
sent to the database keeps the value captured in params before that
assignment), create_time is stamped, and an insert is issued with _seq
directing auto-increment id retrieval. -/
def repoSave (auto_increment : Bool) (table : String) (obj : BaseModel)
    (now : PyDateTime) (flakeId : Int) : Except PyErr (BaseModel × DbCall) := do
  let _ ← factoryCheck table obj
  let params ← to_table obj
  if fieldTruthy obj.id then
    let updates := (params.filter (fun p => p.1 ≠ "id")).map
      (fun p => if p.1 = "version" then (p.1, incInt p.2) else p)
    let updates := assocSet updates "modify_time" (.datetime now)
    let whereStr := "id = " ++ pyStr (assocGet params "id") ++
      " and deleted = 0 and version = " ++ pyStr (assocGet params "version")
    .ok (obj, .update table whereStr updates)
  else
    let r : BaseModel × Option String :=
      if ¬ auto_increment then
        (if fieldTruthy obj.id then obj else { obj with id := some flakeId }, none)
      else
        (obj, some "id")
    let params := assocSet params "create_time" (.datetime now)
    .ok (r.1, .insert table r.2 params)

/-! ## Helper lemmas -/

/-- The id that a non-exhausted flake call starting from state st would have
returned: the packed (tick, machine, sequence) triple of the state. -/
def flakeValue (m : Nat) (st : FlakeState) : Nat :=
  (st.lastPoint <<< (sequenceLength + 12)) + (m <<< sequenceLength) + st.lastSeq

/-- Substituting a single value into a one-placeholder template yields exactly
the rendered value. -/
theorem sql_params_single (v : Value) :
    sql_params "\x7b\x7d" [v] = .ok (sqlParamRender v) := by
  simp [sql_params, pyFormat, pyFormatAux]

/-- Along any run of flake calls under a non-decreasing clock in which no call
signals exhaustion (returns 0), the returned ids strictly increase, each also
exceeding the packed value of the starting state. -/
theorem flakeRun_chain (m : Nat) : ∀ (ps : List Nat) (st : FlakeState),
    st.lastSeq ≤ 1 <<< sequenceLength →
    List.Chain (· ≤ ·) st.lastPoint ps →
    (∀ x ∈ flakeRun m st ps, x ≠ 0) →
    List.Chain' (· < ·) (flakeValue m st :: flakeRun m st ps) := by
  intro ps
  induction ps with
  | nil =>
    intro st _ _ _
    simp [flakeRun]
  | cons p ps ih =>
    intro st hseq hchain hnz
    rw [List.chain_cons] at hchain
    obtain ⟨hle, hchain⟩ := hchain
    by_cases hp : st.lastPoint = p
    · by_cases hex : st.lastSeq + 1 > 1 <<< sequenceLength
      · exact absurd rfl (hnz 0 (by simp [flakeRun, flake, hp, hex]))
      · have hrun : flakeRun m st (p :: ps) =
            flakeValue m { st with lastSeq := st.lastSeq + 1 } ::
              flakeRun m { st with lastSeq := st.lastSeq + 1 } ps := by
          simp [flakeRun, flake, hp, hex, flakeValue]
        rw [hrun]
        rw [hrun] at hnz
        refine List.Chain'.cons ?_ ?_
        · show flakeValue m st < flakeValue m { st with lastSeq := st.lastSeq + 1 }
          simp [flakeValue]
        · exact ih { st with lastSeq := st.lastSeq + 1 }
            (show st.lastSeq + 1 ≤ 1 <<< sequenceLength by omega)
            (show List.Chain (· ≤ ·) st.lastPoint ps by rw [hp]; exact hchain)
            (fun x hx => hnz x (List.mem_cons_of_mem _ hx))
    · have hlt : st.lastPoint < p := lt_of_le_of_ne hle hp
      have hrun : flakeRun m st (p :: ps) =
          flakeValue m { lastPoint := p, lastSeq := 0 } ::
            flakeRun m { lastPoint := p, lastSeq := 0 } ps := by
        simp [flakeRun, flake, hp, flakeValue]
      rw [hrun]
      rw [hrun] at hnz
      refine List.Chain'.cons ?_ ?_
      · show flakeValue m st < flakeValue m { lastPoint := p, lastSeq := 0 }
        simp only [flakeValue, sequenceLength, Nat.shiftLeft_eq] at hseq ⊢
        have h2 : (st.lastPoint + 1) * 2 ^ 22 ≤ p * 2 ^ 22 := Nat.mul_le_mul_right _ hlt
        omega
      · exact ih { lastPoint := p, lastSeq := 0 }
          (Nat.zero_le _)
          (show List.Chain (· ≤ ·) p ps from hchain)
          (fun x hx => hnz x (List.mem_cons_of_mem _ hx))

/-! ## Claim theorems -/

/-- Claim C4, counterexample: the builder chain of the claim does NOT produce
the single-doubled quote of the spec; the claimed string differs from what the
code computes. -/
theorem c4_like_escape_counterexample :
    (QueryWrapper.init.eq "status" (.int 1) |>.like "name" (.str "O\x27Brien")).sql_segment ≠
      "1=1 and status = 1 and name like \x27%O\x27\x27Brien%\x27  " := by
  decide

/-- Claim C4 (amended): QueryWrapper().eq(status, 1).like(name, O-apostrophe-
Brien).sql_segment equals the string with the embedded single quote doubled
TWICE (to four quotes): once by _like_filter and once more by _format_value;
wildcards are wrapped on both sides and the ordering and trailing clauses stay
empty. -/
theorem c4_like_escape_actual :
    (QueryWrapper.init.eq "status" (.int 1) |>.like "name" (.str "O\x27Brien")).sql_segment =
      "1=1 and status = 1 and name like \x27%O\x27\x27\x27\x27Brien%\x27  " := by
  rfl

/-- Claim C5, counterexample: xor mutates the receiver: after A.xor(B) the
condition list held by A is no longer the list A had before the call, refuting
the claim that neither original builder changes. -/
theorem c5_xor_mutation_counterexample :
    ((QueryWrapper.init.eq "status" (.int 1)).xor QueryWrapper.init)._condition ≠
      (QueryWrapper.init.eq "status" (.int 1))._condition := by
  decide

/-- Claim C5 (amended): A.xor(B) rewrites the condition list of the receiver A
in place to the single combined predicate ((A) or (B)) and returns the mutated
receiver, leaving the receiver ordering and trailing clause and the whole
argument B untouched (B is only read). -/
theorem c5_xor_combined (a b : QueryWrapper) :
    a.xor b = { a with _condition :=
      ["((" ++ String.intercalate " and " a._condition ++ ") or (" ++
        String.intercalate " and " b._condition ++ "))"] } := by
  rfl

/-- Claim C7, counterexample: a datetime with a non-zero microsecond field is
rendered by sql_params with a .ffffff tail, not in the exact
YYYY-MM-DD HH:MM:SS form the claim states for every datetime. -/
theorem c7_datetime_render_counterexample :
    sql_params "\x7b\x7d" [.datetime ⟨2020, 1, 1, 12, 0, 0, 500⟩] =
      .ok "\x272020-01-01 12:00:00.000500\x27" ∧
    sql_params "\x7b\x7d" [.datetime ⟨2020, 1, 1, 12, 0, 0, 500⟩] ≠
      .ok "\x272020-01-01 12:00:00\x27" := by
  constructor
  · rfl
  · intro h
    have h1 : (Except.ok "\x272020-01-01 12:00:00.000500\x27" : Except PyErr String) =
        Except.ok "\x272020-01-01 12:00:00\x27" := by
      rw [← h]
      rfl
    exact absurd (Except.ok.inj h1) (by decide)

/-- Claim C7 (amended): sql_params renders every datetime.datetime argument as
the quoted str() of the value with no further escaping, which is exactly the
quoted YYYY-MM-DD HH:MM:SS form precisely when the microsecond field is zero
(otherwise a .ffffff tail is appended before the closing quote). -/
theorem c7_datetime_render :
    (∀ d : PyDateTime, sql_params "\x7b\x7d" [Value.datetime d] =
      .ok ("\x27" ++ dtStr d ++ "\x27")) ∧
    (∀ d : PyDateTime, d.microsecond = 0 → dtStr d = dtStrHMS d) := by
  constructor
  · intro d
    exact sql_params_single (Value.datetime d)
  · intro d h
    simp [dtStr, dtStrHMS, h]

/-- Claim C7 witness: both parts applied at a concrete midnight-precision
datetime. -/
theorem c7_datetime_render_witness :
    sql_params "\x7b\x7d" [Value.datetime ⟨2021, 5, 6, 7, 8, 9, 0⟩] =
      .ok ("\x27" ++ dtStr ⟨2021, 5, 6, 7, 8, 9, 0⟩ ++ "\x27") ∧
    dtStr ⟨2021, 5, 6, 7, 8, 9, 0⟩ = dtStrHMS ⟨2021, 5, 6, 7, 8, 9, 0⟩ :=
  ⟨c7_datetime_render.1 ⟨2021, 5, 6, 7, 8, 9, 0⟩,
    c7_datetime_render.2 ⟨2021, 5, 6, 7, 8, 9, 0⟩ rfl⟩

/-- Claim C9: booleans fail the exact-type numeric test of sql_params (and of
QueryWrapper._format_value), so True and False are stringified and rendered as
the quoted literals, never as unquoted numeric text. -/
theorem c9_bool_render :
    sql_params "\x7b\x7d" [.bool true] = .ok "\x27True\x27" ∧
    sql_params "\x7b\x7d" [.bool false] = .ok "\x27False\x27" ∧
    formatValue (.bool true) = "\x27True\x27" ∧
    formatValue (.bool false) = "\x27False\x27" := by
  exact ⟨rfl, rfl, rfl, rfl⟩

/-- Claim C10: include with an empty value tuple raises IndexError with the
condition list untouched (the raise precedes any mutation), and with at least
one value appends exactly one IN predicate to the condition list. -/
theorem c10_include_spec :
    (∀ (w : QueryWrapper) (c al : String),
      w.includeOp c [] al = (some PyErr.indexError, w)) ∧
    (∀ (w : QueryWrapper) (c al : String) (v : Value) (vs : List Value),
      w.includeOp c (v :: vs) al =
        (none, { w with _condition := w._condition ++
          [(if al ≠ "" then al ++ "." ++ c else c) ++ " in (" ++
            String.intercalate "," ((v :: vs).map formatValue) ++ ")"] })) := by
  constructor
  · intro w c al
    rfl
  · intro w c al v vs
    rfl

/-- Claim C6: within one process (fixed machine id m) under a non-decreasing
clock and non-exhausted-sequence conditions: a call in the same 10ms tick as
the recorded one that does not signal exhaustion increments the stored
sequence number; a call in a strictly later tick resets the sequence to 0 and
returns an id whose tick prefix strictly exceeds the previous tick prefix; and
along a whole non-decreasing run in which no call returns the 0 exhaustion
signal, the returned ids are pairwise distinct (in fact strictly increasing). -/
theorem c6_flake_spec :
    (∀ (m : Nat) (st : FlakeState) (p : Nat), st.lastPoint = p →
      (flake m st p).2 ≠ 0 → (flake m st p).1.lastSeq = st.lastSeq + 1) ∧
    (∀ (m : Nat) (st : FlakeState) (p : Nat), st.lastPoint < p →
      (flake m st p).1.lastSeq = 0 ∧
      (flake m st p).2 = p <<< (sequenceLength + 12) + m <<< sequenceLength ∧
      st.lastPoint <<< (sequenceLength + 12) < p <<< (sequenceLength + 12)) ∧
    (∀ (m : Nat) (st : FlakeState) (ps : List Nat),
      st.lastSeq ≤ 1 <<< sequenceLength →
      List.Chain (· ≤ ·) st.lastPoint ps →
      (∀ x ∈ flakeRun m st ps, x ≠ 0) →
      List.Pairwise (· < ·) (flakeRun m st ps)) := by
  refine ⟨?_, ?_, ?_⟩
  · intro m st p hp hnz
    by_cases hex : st.lastSeq + 1 > 1 <<< sequenceLength
    · exact absurd (by simp [flake, hp, hex]) hnz
    · simp [flake, hp, hex]
  · intro m st p hlt
    have hp : st.lastPoint ≠ p := Nat.ne_of_lt hlt
    refine ⟨by simp [flake, hp], by simp [flake, hp], ?_⟩
    simp only [sequenceLength, Nat.shiftLeft_eq]
    have h2 : (st.lastPoint + 1) * 2 ^ 22 ≤ p * 2 ^ 22 := Nat.mul_le_mul_right _ hlt
    omega
  · intro m st ps hseq hchain hnz
    have h := flakeRun_chain m ps st hseq hchain hnz
    have h2 : List.Chain' (· < ·) (flakeRun m st ps) := h.tail
    exact (List.chain'_iff_pairwise.mp h2)

/-- Claim C6 witness: the three parts instantiated: a second call in tick 100
from sequence 0, a fresh-tick call from tick 100 to 101, and a run over the
non-decreasing points 1, 1, 2 from the initial state. -/
theorem c6_flake_spec_witness :
    (flake 5 ⟨100, 0⟩ 100).1.lastSeq = (⟨100, 0⟩ : FlakeState).lastSeq + 1 ∧
    (flake 5 ⟨100, 0⟩ 101).1.lastSeq = 0 ∧
    List.Pairwise (· < ·) (flakeRun 5 ⟨0, 0⟩ [1, 1, 2]) :=
  ⟨c6_flake_spec.1 5 ⟨100, 0⟩ 100 rfl (by decide),
    (c6_flake_spec.2.1 5 ⟨100, 0⟩ 101 (by decide)).1,
    c6_flake_spec.2.2 5 ⟨0, 0⟩ [1, 1, 2] (by decide)
      (by simp [List.chain_cons]) (by decide)⟩

/-- Claim C8: Page(wrapper, 0, 10) with total set to 25 advances its offset to
10, then 20, and the third next() leaves it at 20; in general next() advances
the offset by size exactly when total is at least offset plus size, and on an
advance the trailing clause is rebuilt to the new LIMIT/OFFSET window. -/
theorem c8_page_next_spec :
    (({ Page.init QueryWrapper.init 0 10 with total := 25 }).next.offset = 10 ∧
     ({ Page.init QueryWrapper.init 0 10 with total := 25 }).next.next.offset = 20 ∧
     ({ Page.init QueryWrapper.init 0 10 with total := 25 }).next.next.next.offset = 20) ∧
    (∀ p : Page, p.next.offset =
      if p.total ≥ p.offset + p.size then p.offset + p.size else p.offset) ∧
    (∀ p : Page, p.total ≥ p.offset + p.size →
      p.next.wrapper._last =
        "LIMIT " ++ toString p.size ++ " OFFSET " ++ toString (p.offset + p.size)) := by
  refine ⟨⟨by decide, by decide, by decide⟩, ?_, ?_⟩
  · intro p
    by_cases h : p.total ≥ p.offset + p.size
    · simp [Page.next, pageStructure, h]
    · simp [Page.next, pageStructure, h]
  · intro p h
    simp [Page.next, pageStructure, h, QueryWrapper.lastClause]

/-- Claim C8 witness: the general parts applied at the concrete first page. -/
theorem c8_page_next_spec_witness :
    ({ Page.init QueryWrapper.init 0 10 with total := 25 }).next.offset =
      (if (25 : Nat) ≥ 0 + 10 then 0 + 10 else 0) ∧
    ({ Page.init QueryWrapper.init 0 10 with total := 25 }).next.wrapper._last =
      "LIMIT " ++ toString 10 ++ " OFFSET " ++ toString (0 + 10) :=
  ⟨c8_page_next_spec.2.1 { Page.init QueryWrapper.init 0 10 with total := 25 },
    c8_page_next_spec.2.2 { Page.init QueryWrapper.init 0 10 with total := 25 } (by decide)⟩

/-- Claim C2, counterexample: for a statement the cursor rejects, Driver.execute
without a transaction argument returns None normally (the except clause rolls
back but never re-raises), and with a transaction argument the exception
propagates but no rollback event ever reaches the context — refuting the claim
that the error is both re-raised and preceded by a rollback in both modes. -/
theorem c2_execute_error_counterexample :
    (driverExecute (fun _ => .error "boom") true "select 1" [] false).result =
      .ok none ∧
    (driverExecute (fun _ => .error "boom") true "select 1" [] true).events =
      [DbEvent.execSql "select 1"] := by
  exact ⟨rfl, rfl⟩

/-- Claim C2 (amended): for every statement whose execution the underlying
cursor rejects, the offending SQL text is always logged; with a transaction
argument the exception is re-raised to the caller with no rollback of the
context; without one the context is rolled back but the exception is
suppressed and execute returns None. -/
theorem c2_execute_error_handling (cursorExec : String → Except String Int)
    (pooling : Bool) (sql fsql : String) (params : List Value) (e : String)
    (hf : sql_params sql params = .ok fsql) (he : cursorExec fsql = .error e) :
    driverExecute cursorExec pooling sql params true =
      { result := .error e, log := ["ERR: " ++ fsql],
        events := [DbEvent.execSql fsql] } ∧
    driverExecute cursorExec pooling sql params false =
      { result := .ok none, log := ["ERR: " ++ fsql],
        events := [DbEvent.execSql fsql] ++ ctxRollback pooling } := by
  constructor
  · simp [driverExecute, driverUnderExecute, hf, he]
  · simp [driverExecute, hf, he]

/-- Claim C2 witness: the amended behaviour at a concrete always-failing
cursor. -/
theorem c2_execute_error_handling_witness :
    driverExecute (fun _ => .error "x") true "q" [] true =
      { result := .error "x", log := ["ERR: " ++ "q"],
        events := [DbEvent.execSql "q"] } ∧
    driverExecute (fun _ => .error "x") true "q" [] false =
      { result := .ok none, log := ["ERR: " ++ "q"],
        events := [DbEvent.execSql "q"] ++ ctxRollback true } :=
  c2_execute_error_handling (fun _ => .error "x") true "q" "q" [] "x" rfl rfl

/-- Claim C1: the claim describes nested begin/commit/rollback with
ignore_nested_transactions as no-ops; on the code, however, constructing a
nested Transaction never reaches the dummy engine: Transaction.__init__ reads
ctx.config, an attribute Driver._load_context never sets on the thread-local
context (the flag lives in Driver.config), so at any depth >= 1 the
constructor raises AttributeError.  The first conjunct replays begin at depth
0 on a freshly loaded context (succeeding with a base frame); the second
evaluates the nested begin on the resulting context and on any context with a
non-empty stack and absent config attribute. -/
theorem c1_nested_begin_attribute_error :
    transactionBegin true load_context =
      .ok ({ db_count := 0, transactions := [⟨0, .base⟩], config := none },
        ⟨0, .base⟩, [DbEvent.commitDb]) ∧
    transactionBegin true
        { db_count := 0, transactions := [⟨0, .base⟩], config := none } =
      .error .attributeError ∧
    (∀ (pooling : Bool) (ctx : Ctx), ctx.transactions ≠ [] → ctx.config = none →
      transactionBegin pooling ctx = .error .attributeError) := by
  refine ⟨rfl, rfl, ?_⟩
  intro pooling ctx hne hcfg
  have hlen : ctx.transactions.length ≠ 0 := by
    simpa using hne
  simp [transactionBegin, hlen, hcfg]

/-- Claim C1 witness: the universally quantified part applied at the concrete
depth-1 context produced by the replay. -/
theorem c1_nested_begin_attribute_error_witness :
    transactionBegin false
        { db_count := 0, transactions := [⟨0, .base⟩], config := none } =
      .error .attributeError :=
  c1_nested_begin_attribute_error.2.2 false
    { db_count := 0, transactions := [⟨0, .base⟩], config := none }
    (by decide) rfl

/-- Claim C3: for a record whose primary key is populated, save issues an
UPDATE whose WHERE clause is exactly the guard
id = [id] and deleted = 0 and version = [stored version] (the pre-increment
version), whose SET entries carry version = stored version + 1 and
modify_time = now; for an unset primary key it issues an INSERT, assigning the
snowflake id to the record when auto increment is off and otherwise delegating
id assignment to auto increment via the _seq argument. -/
theorem c3_repo_save_spec (table : String) (obj : BaseModel) (now : PyDateTime)
    (flakeId : Int) (v dd : Int)
    (hv : obj.version = some v) (hd : obj.deleted = some dd)
    (hchk : factoryCheck table obj = .ok ()) :
    (∀ n : Int, obj.id = some n → n ≠ 0 → ∀ ai : Bool,
      repoSave ai table obj now flakeId = .ok (obj, .update table
        ("id = " ++ toString n ++ " and deleted = 0 and version = " ++ toString v)
        [("version", .int (v + 1)), ("deleted", .int dd),
         ("create_time", optDtV obj.create_time), ("modify_time", .datetime now)])) ∧
    (fieldTruthy obj.id = false →
      repoSave false table obj now flakeId = .ok ({ obj with id := some flakeId },
        .insert table none
          [("id", optIntV obj.id), ("version", .int v), ("deleted", .int dd),
           ("create_time", .datetime now), ("modify_time", optDtV obj.modify_time)]) ∧
      repoSave true table obj now flakeId = .ok (obj,
        .insert table (some "id")
          [("id", optIntV obj.id), ("version", .int v), ("deleted", .int dd),
           ("create_time", .datetime now), ("modify_time", optDtV obj.modify_time)])) := by
  obtain ⟨id, version, deleted, ct, mt⟩ := obj
  subst hv hd
  constructor
  · intro n hn hnz ai
    dsimp only at hn
    subst hn
    have ht : fieldTruthy (some n) = true := by
      simp [fieldTruthy, hnz]
    simp only [repoSave, hchk, to_table, ht]
    rfl
  · intro hf
    constructor
    · simp only [repoSave, hchk, to_table, hf]
      rfl
    · simp only [repoSave, hchk, to_table, hf]
      rfl

/-- Claim C3 witness: the update branch at a record with id 7, version 3, and
the two insert branches at the same record with its id unset. -/
theorem c3_repo_save_spec_witness :
    repoSave true "user" ⟨some 7, some 3, some 0, none, none⟩
        ⟨2024, 1, 2, 3, 4, 5, 0⟩ 99 =
      .ok (⟨some 7, some 3, some 0, none, none⟩, .update "user"
        ("id = " ++ toString (7 : Int) ++ " and deleted = 0 and version = " ++
          toString (3 : Int))
        [("version", .int (3 + 1)), ("deleted", .int 0),
         ("create_time", optDtV none), ("modify_time", .datetime ⟨2024, 1, 2, 3, 4, 5, 0⟩)]) ∧
    repoSave false "user" ⟨none, some 3, some 0, none, none⟩
        ⟨2024, 1, 2, 3, 4, 5, 0⟩ 99 =
      .ok (⟨some 99, some 3, some 0, none, none⟩, .insert "user" none
        [("id", optIntV none), ("version", .int 3), ("deleted", .int 0),
         ("create_time", .datetime ⟨2024, 1, 2, 3, 4, 5, 0⟩), ("modify_time", optDtV none)]) ∧
    repoSave true "user" ⟨none, some 3, some 0, none, none⟩
        ⟨2024, 1, 2, 3, 4, 5, 0⟩ 99 =
      .ok (⟨none, some 3, some 0, none, none⟩, .insert "user" (some "id")
        [("id", optIntV none), ("version", .int 3), ("deleted", .int 0),
         ("create_time", .datetime ⟨2024, 1, 2, 3, 4, 5, 0⟩), ("modify_time", optDtV none)]) :=
  ⟨(c3_repo_save_spec "user" ⟨some 7, some 3, some 0, none, none⟩
      ⟨2024, 1, 2, 3, 4, 5, 0⟩ 99 3 0 rfl rfl rfl).1 7 rfl (by decide) true,
    ((c3_repo_save_spec "user" ⟨none, some 3, some 0, none, none⟩
      ⟨2024, 1, 2, 3, 4, 5, 0⟩ 99 3 0 rfl rfl rfl).2 rfl).1,
    ((c3_repo_save_spec "user" ⟨none, some 3, some 0, none, none⟩
      ⟨2024, 1, 2, 3, 4, 5, 0⟩ 99 3 0 rfl rfl rfl).2 rfl).2⟩

/-- Claim C5 witness: the amended xor equation at a concrete pair of
builders. -/
theorem c5_xor_combined_witness :
    (QueryWrapper.init.eq "status" (.int 1)).xor QueryWrapper.init =
      { QueryWrapper.init.eq "status" (.int 1) with _condition :=
        ["((" ++ String.intercalate " and "
            (QueryWrapper.init.eq "status" (.int 1))._condition ++ ") or (" ++
          String.intercalate " and " QueryWrapper.init._condition ++ "))"] } :=
  c5_xor_combined (QueryWrapper.init.eq "status" (.int 1)) QueryWrapper.init

/-- Claim C10 witness: both include behaviours at a fresh builder. -/
theorem c10_include_spec_witness :
    QueryWrapper.init.includeOp "status" [] "" =
      (some PyErr.indexError, QueryWrapper.init) ∧
    QueryWrapper.init.includeOp "status" [Value.int 1] "" =
      (none, { QueryWrapper.init with _condition := QueryWrapper.init._condition ++
        [(if ("" : String) ≠ "" then "" ++ "." ++ "status" else "status") ++ " in (" ++
          String.intercalate "," ([Value.int 1].map formatValue) ++ ")"] }) :=
  ⟨c10_include_spec.1 QueryWrapper.init "status" "",
    c10_include_spec.2 QueryWrapper.init "status" "" (Value.int 1) []⟩
